import Mathlib

/-!
Verification of the audio feature-derivation recipe and the request handlers
of the youtube_ai_poetry repository, as a shallow embedding in Lean 4.

Source files embedded:
  * src/backend/audio_analyzer.py  (feature aggregator: key estimation, the
    valence / intensity / complexity scores, mood determination)
  * src/lambda/youtube-function/handler.py  (URL validation, the two request
    handlers, the response envelope)

Floating-point values of the source are modelled as exact rationals; NumPy
NaN (which the source tolerates via suppressed warnings) is modelled as
`Option ℚ` with `none` standing for NaN where it matters; raising NumPy
operations (argmax of an empty array, list indexing) are modelled as
`Except`-valued functions in the pipeline-level model.
-/

/-- Population mean of a list, `np.mean`.  On the empty list NumPy yields NaN;
this total rational version yields 0 (division by zero in ℚ); the NaN-aware
pipeline model uses `nmean` below instead. -/
def meanQ (l : List ℚ) : ℚ := l.sum / l.length

/-- Population variance, `np.var` (mean squared deviation). -/
def varQ (l : List ℚ) : ℚ := meanQ (l.map fun x => (x - meanQ l) ^ 2)

/-- Model of np.clip(v, lo, hi). -/
def clipQ (v lo hi : ℚ) : ℚ := min (max v lo) hi

/-- Largest element of a list (0 for the empty list, which never occurs at
call sites). -/
def listMax : List ℚ → ℚ
  | [] => 0
  | [x] => x
  | x :: y :: xs => max x (listMax (y :: xs))

/-- Stable argmax `np.argmax`: index of the first occurrence of the maximum.  Total version
returning 0 on the empty list; NumPy raises there, which the pipeline-level
model `argmaxE` accounts for. -/
def argmaxD : List ℚ → ℕ
  | [] => 0
  | [_] => 0
  | x :: y :: xs => if listMax (y :: xs) ≤ x then 0 else argmaxD (y :: xs) + 1

/-- Model of np.argmax with the empty-input error made explicit. -/
def argmaxE (l : List ℚ) : Except String ℕ :=
  if l.isEmpty then .error "attempt to get argmax of an empty sequence"
  else .ok (argmaxD l)

/-- The fixed pitch-class table `keys` of `analyze_audio`. -/
def keys : List String :=
  ["C", "C#", "D", "D#", "E", "F"] ++ ["F#", "G", "G#", "A", "A#", "B"]

/-- The source's list major_keys = [0, 2, 4, 5, 7, 9, 11]. -/
def major_keys : List ℕ := [0, 2, 4, 5, 7, 9, 11]

/-- Model of np.sum(chroma, axis=1): per-pitch-class sum of the chroma matrix over
the time axis (the matrix is stored as a list of 12 rows). -/
def chromaVals (chroma : List (List ℚ)) : List ℚ := chroma.map List.sum

/-- The expression keys[np.argmax(chroma_vals)] from `analyze_audio` (lines 48-52); the
index is always in range for a 12-row chroma matrix, so the `getD` default is
never consulted. -/
def estimated_key (chroma : List (List ℚ)) : String :=
  keys.getD (argmaxD (chromaVals chroma)) "C"

/-- Function `calculate_valence` (audio_analyzer.py lines 86-98). -/
def calculate_valence (chroma_vals : List ℚ) (tempo energy : ℚ) : ℚ :=
  let key_index := argmaxD chroma_vals
  let is_major := key_index ∈ major_keys
  let tempo_factor := min (tempo / 180) 1
  let energy_factor := min (energy * 10) 1
  clipQ ((if is_major then (0.4 : ℚ) else 0.2) +
    tempo_factor * 0.3 + energy_factor * 0.3) 0 1

/-- Function `calculate_intensity` (audio_analyzer.py lines 100-105). -/
def calculate_intensity (energy tempo : ℚ) : ℚ :=
  let energy_factor := min (energy * 10) 1
  let tempo_factor := min (tempo / 180) 1
  clipQ (energy_factor * 0.6 + tempo_factor * 0.4) 0 1

/-- Function `calculate_complexity` (audio_analyzer.py lines 107-113).  The call site
passes `np.var(mfccs)` — a scalar — as `mfcc_variance`, and `np.mean` of a
scalar is that scalar. -/
def calculate_complexity (spectral_variance mfcc_variance : ℚ) : ℚ :=
  let spectral_factor := min (spectral_variance / 1000000) 1
  let mfcc_factor := min (mfcc_variance / 100) 1
  clipQ (spectral_factor * 0.5 + mfcc_factor * 0.5) 0 1

/-- The complexity score as the pipeline computes it (`analyze_audio`
line 71): `calculate_complexity(np.var(spectral_centroids), np.var(mfccs))`,
where `np.var(mfccs)` is the population variance of the *entire flattened*
13×T MFCC matrix. -/
def complexity_from_matrix (v : ℚ) (M : List (List ℚ)) : ℚ :=
  calculate_complexity v (varQ M.flatten)

/-- Modelled from the spec's words for claim comparison: the complexity
formula with the MFCC term taken as the arithmetic mean of the per-row
(per-coefficient) variances of the matrix. -/
def complexity_claimed (v : ℚ) (M : List (List ℚ)) : ℚ :=
  clipQ (0.5 * min (v / 1000000) 1 + 0.5 * min (meanQ (M.map varQ) / 100) 1) 0 1

/-- Function `determine_mood` (audio_analyzer.py lines 115-128). -/
def determine_mood (tempo energy : ℚ) (chroma_vals : List ℚ) : String :=
  let key_index := argmaxD chroma_vals
  let is_major := key_index ∈ major_keys
  if tempo > 140 ∧ energy > 0.15 then
    if is_major then "energetic" else "intense"
  else if tempo > 100 ∧ energy > 0.1 then
    if is_major then "upbeat" else "dramatic"
  else if tempo < 80 then
    if is_major then "calm" else "melancholic"
  else
    if is_major then "moderate" else "contemplative"

/-- The eight mood labels. -/
def moodLabels : List String :=
  ["energetic", "intense", "upbeat", "dramatic",
   "calm", "melancholic", "moderate", "contemplative"]

/-- First-match evaluation of an ordered rule list (condition, result),
falling through to a default. -/
def firstMatchD : List (Bool × String) → String → String
  | [], d => d
  | (c, r) :: rest, d => if c then r else firstMatchD rest d

/-- Modelled from the spec's words: the mood rules as an explicit
priority-ordered list, first match wins. -/
def moodSpec (tempo energy : ℚ) (is_major : Bool) : String :=
  firstMatchD
    [(decide (tempo > 140) && decide (energy > 0.15),
        if is_major then "energetic" else "intense"),
     (decide (tempo > 100) && decide (energy > 0.1),
        if is_major then "upbeat" else "dramatic"),
     (decide (tempo < 80),
        if is_major then "calm" else "melancholic")]
    (if is_major then "moderate" else "contemplative")

/-- A 13×1 MFCC matrix with a single nonzero entry: its per-row variances are
all zero while the variance of its flattened entries is not. -/
def mfccEx : List (List ℚ) :=
  [[10], [0], [0], [0], [0], [0], [0], [0], [0], [0], [0], [0], [0]]

/-- A 12-entry chroma-energy vector maximal at pitch-class index 0 (C). -/
def chromaValsEx : List ℚ := [1, 0, 0, 0, 0, 0, 0, 0, 0, 0, 0, 0]

/-- A concrete 12×2 chroma matrix whose per-row sums are maximal at index 3. -/
def chromaEx : List (List ℚ) :=
  [[0, 1], [2, 0], [0, 0], [5, 1], [0, 0], [0, 0],
   [0, 0], [1, 1], [0, 0], [0, 0], [0, 0], [3, 2]]

/-- NumPy mean as NumPy computes it: NaN (modelled `none`) on an empty
sequence, with the runtime warning suppressed by the source's
`warnings.filterwarnings`. -/
def nmean (l : List ℚ) : Option ℚ := if l.isEmpty then none else some (meanQ l)

/-- NumPy variance with NaN on an empty sequence. -/
def nvar (l : List ℚ) : Option ℚ := if l.isEmpty then none else some (varQ l)

/-- Python comparison `x > c` where `x` may be NaN: any comparison with NaN
is false. -/
def ogt (x : Option ℚ) (c : ℚ) : Bool :=
  match x with
  | some v => decide (v > c)
  | none => false

/-- Pipeline-level `calculate_valence`: the argmax of the chroma energies
can raise on an empty vector, and a NaN `energy` (mean RMS of an empty clip)
propagates through `min`, the sum and `np.clip` to a NaN valence. -/
def valenceE (chroma_vals : List ℚ) (tempo : ℚ) (energy : Option ℚ) :
    Except String (Option ℚ) :=
  match argmaxE chroma_vals with
  | .error e => .error e
  | .ok key_index =>
    let is_major := key_index ∈ major_keys
    let tempo_factor := min (tempo / 180) 1
    .ok (energy.map fun en =>
      clipQ ((if is_major then (0.4 : ℚ) else 0.2) +
        tempo_factor * 0.3 + min (en * 10) 1 * 0.3) 0 1)

/-- Pipeline-level `calculate_intensity`: NaN energy yields NaN. -/
def intensityO (energy : Option ℚ) (tempo : ℚ) : Option ℚ :=
  energy.map fun en =>
    clipQ (min (en * 10) 1 * 0.6 + min (tempo / 180) 1 * 0.4) 0 1

/-- Pipeline-level `calculate_complexity`: a NaN in either variance yields
NaN. -/
def complexityO (spectral_variance mfcc_variance : Option ℚ) : Option ℚ :=
  match spectral_variance, mfcc_variance with
  | some sv, some mv => some (calculate_complexity sv mv)
  | _, _ => none

/-- Pipeline-level `determine_mood`: argmax can raise; NaN energy makes
both energy comparisons false. -/
def moodE (tempo : ℚ) (energy : Option ℚ) (chroma_vals : List ℚ) :
    Except String String :=
  match argmaxE chroma_vals with
  | .error e => .error e
  | .ok key_index =>
    let is_major := key_index ∈ major_keys
    .ok (if decide (tempo > 140) && ogt energy 0.15 then
        if is_major then "energetic" else "intense"
      else if decide (tempo > 100) && ogt energy 0.1 then
        if is_major then "upbeat" else "dramatic"
      else if decide (tempo < 80) then
        if is_major then "calm" else "melancholic"
      else
        if is_major then "moderate" else "contemplative")

/-- The primitive outputs `analyze_audio` aggregates for one decoded clip
(each per-frame sequence may be empty for a degenerate clip). -/
structure AggInput where
  duration : ℚ
  tempo : ℚ
  centroid : List ℚ
  rolloff : List ℚ
  zcr : List ℚ
  mfcc : List (List ℚ)
  chroma : List (List ℚ)
  rms : List ℚ

/-- The `features` dictionary built by `analyze_audio` (lines 55-73), with
NaN-able statistics as `Option ℚ`. -/
structure Features where
  duration : ℚ
  tempo : ℚ
  key : String
  energy : Option ℚ
  energy_variance : Option ℚ
  spectral_centroid : Option ℚ
  spectral_centroid_variance : Option ℚ
  spectral_rolloff : Option ℚ
  zero_crossing_rate : Option ℚ
  mfcc_mean : List (Option ℚ)
  mfcc_variance : List (Option ℚ)
  valence : Option ℚ
  intensity : Option ℚ
  complexity : Option ℚ
  mood : String

/-- The aggregation part of `analyze_audio` (lines 48-73): key estimation and
the features dictionary.  The operations that can raise — `np.argmax` of an
empty vector and the `keys[key_index]` lookup — are `Except`-modelled; every
other reduction is total (NumPy means/variances of empty sequences give NaN,
not errors). -/
def aggregateE (inp : AggInput) : Except String Features :=
  let chroma_vals := chromaVals inp.chroma
  match argmaxE chroma_vals with
  | .error e => .error e
  | .ok key_index =>
    match keys[key_index]? with
    | none => .error "list index out of range"
    | some estKey =>
      let energy := nmean inp.rms
      match valenceE chroma_vals inp.tempo energy with
      | .error e => .error e
      | .ok val =>
        match moodE inp.tempo energy chroma_vals with
        | .error e => .error e
        | .ok mood =>
          .ok { duration := inp.duration
                tempo := inp.tempo
                key := estKey
                energy := energy
                energy_variance := nvar inp.rms
                spectral_centroid := nmean inp.centroid
                spectral_centroid_variance := nvar inp.centroid
                spectral_rolloff := nmean inp.rolloff
                zero_crossing_rate := nmean inp.zcr
                mfcc_mean := inp.mfcc.map nmean
                mfcc_variance := inp.mfcc.map nvar
                valence := val
                intensity := intensityO energy inp.tempo
                complexity := complexityO (nvar inp.centroid) (nvar inp.mfcc.flatten)
                mood := mood }

/-- A fully degenerate clip: every per-frame sequence empty, the chroma
matrix 12 empty rows. -/
def emptyClip : AggInput :=
  { duration := 0
    tempo := 0
    centroid := []
    rolloff := []
    zcr := []
    mfcc := []
    chroma := [[], [], [], [], [], [], [], [], [], [], [], []]
    rms := [] }

/-- Split a character list at the first occurrence of `c`: the part before
it, and — when `c` occurs — the part after it. -/
def splitFirst (c : Char) : List Char → List Char × Option (List Char)
  | [] => ([], none)
  | x :: xs =>
    if x = c then ([], some xs)
    else
      let r := splitFirst c xs
      (x :: r.1, r.2)

/-- Split on every occurrence of `c` (Python str.split). -/
def splitAll (c : Char) : List Char → List (List Char)
  | [] => [[]]
  | x :: xs =>
    let r := splitAll c xs
    if x = c then [] :: r
    else
      match r with
      | [] => [[x]]
      | h :: t => (x :: h) :: t

/-- The fields of Python urllib.parse.urlparse that the validator reads. -/
structure PyUrl where
  netloc : List Char
  path : List Char
  query : List Char

/-- Characters allowed in a URL scheme after the leading letter. -/
def isSchemeChar (c : Char) : Bool := c.isAlphanum || c = '+' || c = '-' || c = '.'

/-- Python urlparse for the shapes the validator distinguishes: strip a valid
scheme at the first ':', read a '//'-introduced netloc up to '/', '?' or '#',
drop the fragment at the first '#', split the query at the first '?'.
(Percent-decoding and IPv6 bracket handling are not modelled; no claim input
uses them.) -/
def pyUrlparse (s : List Char) : PyUrl :=
  let rest :=
    match splitFirst ':' s with
    | (before, some after) =>
      match before with
      | [] => s
      | h :: t => if h.isAlpha && t.all isSchemeChar then after else s
    | (_, none) => s
  let hasAuthority := rest.take 2 = ['/', '/']
  let netloc :=
    if hasAuthority then
      (rest.drop 2).takeWhile (fun c => c ≠ '/' && c ≠ '?' && c ≠ '#')
    else []
  let rest2 :=
    if hasAuthority then
      (rest.drop 2).dropWhile (fun c => c ≠ '/' && c ≠ '?' && c ≠ '#')
    else rest
  let noFrag := (splitFirst '#' rest2).1
  let pq := splitFirst '?' noFrag
  ⟨netloc, pq.1, pq.2.getD []⟩

/-- Python's `hostname` property: the netloc after the last '@', before the
first ':', lowercased. -/
def hostnameOf (netloc : List Char) : List Char :=
  let afterUser := (netloc.reverse.takeWhile (fun c => c ≠ '@')).reverse
  (afterUser.takeWhile (fun c => c ≠ ':')).map Char.toLower

/-- Python `'v' in parse_qs(query)`: some '&'-separated pair has key 'v' with
a nonempty value (a bare 'v' or 'v=' is dropped by parse_qs's default
keep_blank_values=False). -/
def hasVParam (query : List Char) : Bool :=
  (splitAll '&' query).any fun pair =>
    match splitFirst '=' pair with
    | (k, some v) => k = ['v'] && v ≠ []
    | (_, none) => false

/-- Validator `is_valid_youtube_url` (handler.py lines 216-234). -/
def is_valid_youtube_url (url : String) : Bool :=
  let p := pyUrlparse url.data
  let hostname := hostnameOf p.netloc
  if hostname = "www.youtube.com".data ∨ hostname = "youtube.com".data ∨
      hostname = "m.youtube.com".data then
    decide (p.path = "/watch".data) && hasVParam p.query
  else if hostname = "youtu.be".data then
    decide (p.path.length > 1)
  else
    false

/-- The fields of the yt-dlp metadata JSON that the handlers read; `none`
models an absent (or JSON-null) field. -/
structure VideoInfo where
  title : Option String
  duration : Option Int
  thumbnail : Option String
  uploader : Option String
  channel : Option String
  id : Option String
  webpage_url : Option String

/-- The `details` payloads `error_response` is called with. -/
inductive Details where
  | durMax (duration maxDuration : Int)
  | stderrTrunc (s : String)
  | msg (s : String)

/-- The JSON response bodies the handlers build: the `{error, details?}`
envelope, the info success payload, and the audio-with-analysis success
payload `{success: true, videoInfo: {...}, analysis: features}`. -/
inductive Body where
  | err (message : String) (details : Option Details)
  | okInfo (title : String) (duration : Int) (thumbnail : String)
      (author : String) (url : String)
  | okAudio (title : Option String) (duration : Option Int)
      (author : Option String) (thumbnail : String) (analysis : Features)

/-- A Lambda response: status code and JSON body (the fixed
Content-Type/CORS headers carry no information and are omitted). -/
structure Resp where
  statusCode : Nat
  body : Body

/-- Function `error_response` (handler.py lines 251-266). -/
def error_response (statusCode : ℕ) (message : String)
    (details : Option Details) : Resp :=
  ⟨statusCode, .err message details⟩

/-- Which external subprocesses a handler invocation ran, in order. -/
inductive Event where
  | infoFetch
  | download
deriving DecidableEq

/-- Outcome of the yt-dlp --dump-json metadata subprocess followed by
json.loads: timeout, nonzero exit, or an output that parses (or not). -/
inductive ProcResult where
  | timeout
  | exitNonzero (stderr : String)
  | output (parsed : Except String VideoInfo)

/-- Outcome of the yt-dlp audio-download subprocess. -/
inductive DlResult where
  | timeout
  | exitNonzero (stderr : String)
  | ok

/-- Outcome of `analyze_audio` as the handler sees it: the
`{success, features|error}` dictionary. -/
inductive AnalyzeOutcome where
  | failure (error : String)
  | ok (features : Features)

/-- Python `str()` of an optional string, as in the f-string fallback for the
thumbnail URL. -/
def pyStr (o : Option String) : String :=
  match o with
  | some s => s
  | none => "None"

/-- Thumbnail fallback of the audio handler,
video_info.get('thumbnail') or the constructed i3.ytimg.com URL:
a missing or empty (falsy) thumbnail falls back to the constructed URL. -/
def audioThumb (vi : VideoInfo) : String :=
  let fallback := "https://i3.ytimg.com/vi/" ++ pyStr vi.id ++ "/maxresdefault.jpg"
  match vi.thumbnail with
  | some t => if t = "" then fallback else t
  | none => fallback

/-- Author fallback of the info handler,
video_info.get('uploader') or video_info.get('channel', 'Unknown'):
a missing or empty (falsy) uploader falls back to the channel. -/
def infoAuthor (vi : VideoInfo) : String :=
  match vi.uploader with
  | some u => if u = "" then vi.channel.getD "Unknown" else u
  | none => vi.channel.getD "Unknown"

/-- Python str() of the NameError raised by evaluating the out-of-scope name
`context` at handler.py line 146 (`context` is a parameter of
`lambda_handler`, never passed to `handle_youtube_audio_with_analysis`), as
surfaced by the generic except clause at line 202. -/
def nameErrorMsg : String :=
  "Failed to process: name 'context' is not defined"

/-- Handler `handle_youtube_audio_with_analysis` (handler.py lines 105-213), with the
metadata subprocess and the analysis step as oracles; the second component
records which subprocesses ran.  A missing *or empty* url parameter is falsy
in Python, hence the `url = ""` case of `if not url`.  A json.loads failure
is caught by the generic `except Exception` clause (status 500).
Line 146 reads `context.request_id if context else str(os.getpid())`, but
`context` is a parameter of `lambda_handler` and is not in scope in this
function, so once the duration gate passes this line raises NameError, the
generic except clause returns 500, and the download invocation (line 151),
the analysis call (line 174) and the 200 success response (lines 187-198)
are unreachable dead code — the download and analysis oracles for those
steps are kept as arguments for the orchestration's shape but are never
consulted. -/
def handle_youtube_audio_with_analysis (url? : Option String)
    (fetch : ProcResult) (_dl : DlResult) (_an : AnalyzeOutcome) :
    Resp × List Event :=
  match url? with
  | none => (error_response 400 "URL parameter is required" none, [])
  | some url =>
    if url = "" then (error_response 400 "URL parameter is required" none, [])
    else if is_valid_youtube_url url = false then
      (error_response 400 "Invalid YouTube URL" none, [])
    else
      match fetch with
      | .timeout => (error_response 504 "Request timeout" none, [.infoFetch])
      | .exitNonzero _ =>
        (error_response 500 "Failed to get video information" none, [.infoFetch])
      | .output (.error e) =>
        (error_response 500 ("Failed to process: " ++ e) none, [.infoFetch])
      | .output (.ok vi) =>
        let duration := vi.duration.getD 0
        if duration > 300 then
          (error_response 400 "Video duration exceeds 5 minute limit"
            (some (.durMax duration 300)), [.infoFetch])
        else
          (error_response 500 nameErrorMsg none, [.infoFetch])

/-- Handler `handle_youtube_info` (handler.py lines 43-102): metadata lookup only; no
download subprocess exists on this path. -/
def handle_youtube_info (url? : Option String) (fetch : ProcResult) :
    Resp × List Event :=
  match url? with
  | none => (error_response 400 "URL parameter is required" none, [])
  | some url =>
    if url = "" then (error_response 400 "URL parameter is required" none, [])
    else if is_valid_youtube_url url = false then
      (error_response 400 "Invalid YouTube URL" none, [])
    else
      match fetch with
      | .timeout => (error_response 504 "Request timeout" none, [.infoFetch])
      | .exitNonzero stderr =>
        (error_response 500 "Failed to fetch video information"
          (some (.msg stderr)), [.infoFetch])
      | .output (.error _) =>
        (error_response 500 "Failed to parse video information" none, [.infoFetch])
      | .output (.ok vi) =>
        let duration := vi.duration.getD 0
        if duration > 300 then
          (error_response 400 "Video duration exceeds 5 minute limit"
            (some (.durMax duration 300)), [.infoFetch])
        else
          (⟨200, .okInfo (vi.title.getD "Unknown") duration
            (vi.thumbnail.getD "") (infoAuthor vi) (vi.webpage_url.getD url)⟩,
            [.infoFetch])

/-- Concrete metadata for witnesses: duration 200 seconds. -/
def viEx : VideoInfo :=
  { title := some "a title"
    duration := some 200
    thumbnail := some "https://img.example/t.jpg"
    uploader := some "an uploader"
    channel := some "a channel"
    id := some "abc123"
    webpage_url := some "https://www.youtube.com/watch?v=abc123" }

/-- Concrete metadata for witnesses: duration 301 seconds, over the limit. -/
def viEx301 : VideoInfo :=
  { title := some "a title"
    duration := some 301
    thumbnail := some "https://img.example/t.jpg"
    uploader := some "an uploader"
    channel := some "a channel"
    id := some "abc123"
    webpage_url := some "https://www.youtube.com/watch?v=abc123" }

/-- Concrete metadata for witnesses: duration exactly 300 seconds, at the
limit. -/
def viEx300 : VideoInfo :=
  { title := some "a title"
    duration := some 300
    thumbnail := some "https://img.example/t.jpg"
    uploader := some "an uploader"
    channel := some "a channel"
    id := some "abc123"
    webpage_url := some "https://www.youtube.com/watch?v=abc123" }

/-- A concrete features record for witnesses. -/
def featuresEx : Features :=
  { duration := 0
    tempo := 0
    key := "C"
    energy := none
    energy_variance := none
    spectral_centroid := none
    spectral_centroid_variance := none
    spectral_rolloff := none
    zero_crossing_rate := none
    mfcc_mean := []
    mfcc_variance := []
    valence := none
    intensity := none
    complexity := none
    mood := "calm" }

-- Basic facts about clipping and the argmax model.

theorem clipQ_nonneg (v : ℚ) : 0 ≤ clipQ v 0 1 :=
  le_min (le_max_right v 0) (by norm_num)

theorem clipQ_le_one (v : ℚ) : clipQ v 0 1 ≤ 1 := min_le_right _ _

theorem argmaxD_lt_length : ∀ (l : List ℚ), l ≠ [] → argmaxD l < l.length
  | [], h => absurd rfl h
  | [_], _ => by simp [argmaxD]
  | x :: y :: xs, _ => by
    rw [argmaxD]
    split
    · simp
    · have := argmaxD_lt_length (y :: xs) (by simp)
      simpa [Nat.succ_lt_succ_iff] using this

theorem getD_le_listMax : ∀ (l : List ℚ), ∀ i < l.length, l.getD i 0 ≤ listMax l
  | [], i, h => by simp at h
  | [x], 0, _ => by simp [listMax]
  | [x], i + 1, h => by simp at h
  | x :: y :: xs, 0, _ => by simp [listMax]
  | x :: y :: xs, i + 1, h => by
    have := getD_le_listMax (y :: xs) i (by simpa using h)
    calc (x :: y :: xs).getD (i + 1) 0 = (y :: xs).getD i 0 := by simp
    _ ≤ listMax (y :: xs) := this
    _ ≤ listMax (x :: y :: xs) := by rw [listMax]; exact le_max_right _ _

theorem getD_argmaxD : ∀ (l : List ℚ), l ≠ [] → l.getD (argmaxD l) 0 = listMax l
  | [], h => absurd rfl h
  | [x], _ => by simp [argmaxD, listMax]
  | x :: y :: xs, _ => by
    rw [argmaxD, listMax]
    split
    · next hle => simp [max_eq_left hle]
    · next hlt =>
      have := getD_argmaxD (y :: xs) (by simp)
      simp only [List.getD_cons_succ, this]
      exact (max_eq_right (le_of_lt (lt_of_not_le hlt))).symm

theorem getD_lt_of_lt_argmaxD :
    ∀ (l : List ℚ), ∀ j < argmaxD l, l.getD j 0 < listMax l
  | [], j, h => by simp [argmaxD] at h
  | [x], j, h => by simp [argmaxD] at h
  | x :: y :: xs, j, h => by
    rw [argmaxD] at h
    split at h
    · omega
    · next hlt =>
      rw [listMax, max_eq_right (le_of_lt (lt_of_not_le hlt))]
      match j with
      | 0 => simpa using lt_of_not_le hlt
      | j + 1 =>
        have := getD_lt_of_lt_argmaxD (y :: xs) j (by omega)
        simpa using this

/-- C2 counterexample: with spectral-centroid variance 0 and the 13×1 MFCC
matrix `mfccEx`, the complexity the pipeline computes (using the variance of
the flattened matrix) differs from the claimed formula (using the mean of the
13 per-row variances, which is 0 here). -/
theorem complexity_counterexample_C2 :
    complexity_from_matrix 0 mfccEx ≠ complexity_claimed 0 mfccEx := by
  norm_num [complexity_from_matrix, complexity_claimed, calculate_complexity,
    clipQ, varQ, meanQ, mfccEx, min_def, max_def]

/-- C2 (amended): the pipeline's complexity score equals
clamp(0.5*min(v/1000000,1) + 0.5*min(m/100,1), 0, 1) where m is the
population variance of all 13·T entries of the MFCC matrix pooled together
(not the mean of the 13 per-row variances). -/
theorem complexity_from_matrix_formula_C2 (v : ℚ) (M : List (List ℚ)) :
    complexity_from_matrix v M =
      clipQ (0.5 * min (v / 1000000) 1 + 0.5 * min (varQ M.flatten / 100) 1) 0 1 := by
  unfold complexity_from_matrix calculate_complexity clipQ
  ring_nf

/-- C4: at tempo 150, mean RMS 0.2 and chroma energy maximal at pitch class C
(major), the mood is "energetic", the intensity is 14/15 = 0.9333… and the
valence is 19/20 = 0.95. -/
theorem end_to_end_scenario_C4 :
    determine_mood 150 0.2 chromaValsEx = "energetic" ∧
    calculate_intensity 0.2 150 = 14 / 15 ∧
    calculate_valence chromaValsEx 150 0.2 = 19 / 20 := by
  norm_num [determine_mood, calculate_intensity, calculate_valence, chromaValsEx,
    argmaxD, listMax, clipQ, major_keys, min_def, max_def]

/-- C5: for every tempo, mean RMS and major/minor classification the mood is
one of the 8 fixed labels, and it equals the first-match evaluation of the
ordered rule list (tempo>140 ∧ rms>0.15; then tempo>100 ∧ rms>0.1; then
tempo<80; otherwise the default), so the first matching rule wins even when a
later rule also matches. -/
theorem determine_mood_rules_C5 (tempo energy : ℚ) (cv : List ℚ) :
    determine_mood tempo energy cv ∈ moodLabels ∧
    determine_mood tempo energy cv =
      moodSpec tempo energy (decide (argmaxD cv ∈ major_keys)) := by
  have hmain : determine_mood tempo energy cv =
      moodSpec tempo energy (decide (argmaxD cv ∈ major_keys)) := by
    unfold determine_mood moodSpec
    by_cases h1 : tempo > 140 ∧ energy > 0.15 <;>
    by_cases h2 : tempo > 100 ∧ energy > 0.1 <;>
    by_cases h3 : tempo < 80 <;>
    by_cases hm : argmaxD cv ∈ major_keys <;>
    simp [firstMatchD, h1, h2, h3, hm]
  refine ⟨?_, hmain⟩
  rw [hmain]
  unfold moodSpec
  cases hb : decide (argmaxD cv ∈ major_keys) <;>
    simp only [firstMatchD, moodLabels] <;> split_ifs <;> simp

/-- C6: for all rational inputs (chroma energies, tempo, mean RMS, centroid
variance, MFCC variance) the three derived scores valence, intensity and
complexity lie in [0,1]. -/
theorem scores_in_unit_interval_C6 (cv : List ℚ) (tempo energy sv mv : ℚ) :
    (0 ≤ calculate_valence cv tempo energy ∧ calculate_valence cv tempo energy ≤ 1) ∧
    (0 ≤ calculate_intensity energy tempo ∧ calculate_intensity energy tempo ≤ 1) ∧
    (0 ≤ calculate_complexity sv mv ∧ calculate_complexity sv mv ≤ 1) :=
  ⟨⟨clipQ_nonneg _, clipQ_le_one _⟩, ⟨clipQ_nonneg _, clipQ_le_one _⟩,
    ⟨clipQ_nonneg _, clipQ_le_one _⟩⟩

/-- C7: for every 12-row chroma matrix, the estimated key is the pitch class
at the stable argmax of the per-pitch-class sums over the time axis: the
result is one of the 12 fixed labels, the argmax index is in range, every
summed energy is at most the one at the argmax, and every index before the
argmax holds strictly less energy (lowest index wins ties). -/
theorem estimated_key_spec_C7 (chroma : List (List ℚ)) (h : chroma.length = 12) :
    estimated_key chroma ∈ keys ∧
    argmaxD (chromaVals chroma) < 12 ∧
    (∀ i < 12, (chromaVals chroma).getD i 0 ≤
      (chromaVals chroma).getD (argmaxD (chromaVals chroma)) 0) ∧
    (∀ j < argmaxD (chromaVals chroma), (chromaVals chroma).getD j 0 <
      (chromaVals chroma).getD (argmaxD (chromaVals chroma)) 0) := by
  have hlen : (chromaVals chroma).length = 12 := by simp [chromaVals, h]
  have hne : chromaVals chroma ≠ [] := by
    intro hh
    rw [hh] at hlen
    simp at hlen
  have hlt : argmaxD (chromaVals chroma) < 12 :=
    hlen ▸ argmaxD_lt_length _ hne
  have hmax := getD_argmaxD _ hne
  refine ⟨?_, hlt, ?_, ?_⟩
  · unfold estimated_key
    have hmem : ∀ k < 12, keys.getD k "C" ∈ keys := by decide
    exact hmem _ hlt
  · intro i hi
    rw [hmax]
    exact getD_le_listMax _ i (by rw [hlen]; exact hi)
  · intro j hj
    rw [hmax]
    exact getD_lt_of_lt_argmaxD _ j hj

/-- Witness for C7 at a concrete 12×2 chroma matrix. -/
theorem estimated_key_spec_C7_witness : estimated_key chromaEx ∈ keys :=
  (estimated_key_spec_C7 chromaEx (by decide)).1

/-- C3: for every well-formed input (a 12-row chroma matrix, all per-frame
sequences arbitrary and possibly empty) the aggregation step of
`analyze_audio` raises no exception: it returns a features record, with empty
sequences degrading to NaN-valued statistics rather than errors. -/
theorem aggregate_total_C3 (inp : AggInput) (h : inp.chroma.length = 12) :
    ∃ f, aggregateE inp = Except.ok f := by
  have hlen : (chromaVals inp.chroma).length = 12 := by simp [chromaVals, h]
  have hne : (chromaVals inp.chroma).isEmpty = false := by
    cases hcv : chromaVals inp.chroma
    · rw [hcv] at hlen
      simp at hlen
    · simp
  have hne' : chromaVals inp.chroma ≠ [] := by
    intro hh
    rw [hh] at hne
    simp at hne
  have hE : argmaxE (chromaVals inp.chroma) =
      Except.ok (argmaxD (chromaVals inp.chroma)) := by
    simp [argmaxE, hne]
  have hlt : argmaxD (chromaVals inp.chroma) < 12 :=
    hlen ▸ argmaxD_lt_length _ hne'
  have hsome : ∀ k < 12, (keys[k]?).isSome = true := by decide
  obtain ⟨s, hs⟩ := Option.isSome_iff_exists.mp (hsome _ hlt)
  simp only [aggregateE, valenceE, moodE, hE, hs]
  exact ⟨_, rfl⟩

/-- Witness for C3 at the fully degenerate all-empty clip. -/
theorem aggregate_total_C3_witness : ∃ f, aggregateE emptyClip = Except.ok f :=
  aggregate_total_C3 emptyClip (by decide)

/-- A URL that passes validation is not the empty string (the handlers treat
an empty url parameter as missing before validating). -/
theorem ne_empty_of_valid {u : String} (h : is_valid_youtube_url u = true) :
    u ≠ "" := by
  intro he
  rw [he] at h
  exact absurd h (by decide)

/-- C1 (code bug at handler.py line 146): the claim's happy path never
happens.  For every request whose URL validates and whose metadata duration
passes the 300-second gate — whatever the download and analysis oracles would
do — the handler returns 500 with the NameError text instead of the claimed
200 success body, and the download subprocess is never invoked: line 146
evaluates the name `context`, which is a parameter of `lambda_handler` and is
not in scope in `handle_youtube_audio_with_analysis`, so the NameError is
raised before the download and caught by the generic except clause. -/
theorem audio_with_analysis_namerror_C1 (u : String) (vi : VideoInfo)
    (dl : DlResult) (an : AnalyzeOutcome)
    (hu : is_valid_youtube_url u = true)
    (hd : vi.duration.getD 0 ≤ 300) :
    (handle_youtube_audio_with_analysis (some u) (.output (.ok vi)) dl an).1 =
      error_response 500 nameErrorMsg none ∧
    Event.download ∉
      (handle_youtube_audio_with_analysis (some u) (.output (.ok vi)) dl an).2 := by
  have hne : u ≠ "" := ne_empty_of_valid hu
  have hd' : ¬ vi.duration.getD 0 > 300 := by omega
  constructor <;>
    simp [handle_youtube_audio_with_analysis, error_response, hne, hu, hd']

/-- Witness for C1: a concrete request that passes validation and the
duration gate and whose download and analysis oracles would succeed. -/
theorem audio_with_analysis_namerror_C1_witness :
    (handle_youtube_audio_with_analysis (some "https://youtu.be/abc123")
      (.output (.ok viEx)) .ok (.ok featuresEx)).1 =
      error_response 500 nameErrorMsg none ∧
    Event.download ∉
      (handle_youtube_audio_with_analysis (some "https://youtu.be/abc123")
        (.output (.ok viEx)) .ok (.ok featuresEx)).2 :=
  audio_with_analysis_namerror_C1 "https://youtu.be/abc123" viEx .ok
    (.ok featuresEx) (by decide) (by decide)

/-- C8 (code bug at handler.py line 146): with valid URL and fetched
metadata, duration 301 is rejected with 400 and
{duration: 301, maxDuration: 300} before any download attempt, exactly as
claimed; but duration 300, though it passes the gate (no 400 rejection),
does not proceed to download: the NameError from the out-of-scope name
`context` returns 500 first, and the download subprocess is never invoked. -/
theorem duration_gate_namerror_C8 (u : String) (vi : VideoInfo)
    (dl : DlResult) (an : AnalyzeOutcome)
    (hu : is_valid_youtube_url u = true) :
    (vi.duration = some 301 →
      (handle_youtube_audio_with_analysis (some u) (.output (.ok vi)) dl an).1 =
        error_response 400 "Video duration exceeds 5 minute limit"
          (some (.durMax 301 300)) ∧
      Event.download ∉
        (handle_youtube_audio_with_analysis (some u) (.output (.ok vi)) dl an).2) ∧
    (vi.duration = some 300 →
      (handle_youtube_audio_with_analysis (some u) (.output (.ok vi)) dl an).1 =
        error_response 500 nameErrorMsg none ∧
      Event.download ∉
        (handle_youtube_audio_with_analysis (some u) (.output (.ok vi)) dl an).2) := by
  have hne : u ≠ "" := ne_empty_of_valid hu
  constructor
  · intro hd
    simp [handle_youtube_audio_with_analysis, error_response, hne, hu, hd]
  · intro hd
    simp [handle_youtube_audio_with_analysis, error_response, hne, hu, hd]

/-- Witness for C8: at duration 300 the gate passes but the response is the
NameError 500 and no download event is recorded. -/
theorem duration_gate_namerror_C8_witness :
    (handle_youtube_audio_with_analysis (some "https://youtu.be/abc123")
      (.output (.ok viEx300)) .ok (.ok featuresEx)).1 =
      error_response 500 nameErrorMsg none ∧
    Event.download ∉
      (handle_youtube_audio_with_analysis (some "https://youtu.be/abc123")
        (.output (.ok viEx300)) .ok (.ok featuresEx)).2 :=
  (duration_gate_namerror_C8 "https://youtu.be/abc123" viEx300 .ok
    (.ok featuresEx) (by decide)).2 rfl

/-- C9: the URL validator accepts the youtube.com watch page with a v query
parameter and youtu.be with a nonempty path, rejects youtu.be with an empty
path and foreign hosts, and a request whose URL fails validation runs no
subprocess at all (in either handler). -/
theorem url_validation_C9 :
    is_valid_youtube_url "https://www.youtube.com/watch?v=abc123" = true ∧
    is_valid_youtube_url "https://youtu.be/abc123" = true ∧
    is_valid_youtube_url "https://youtu.be/" = false ∧
    is_valid_youtube_url "https://example.com/watch?v=abc" = false ∧
    (∀ u fetch dl an, is_valid_youtube_url u = false →
      (handle_youtube_audio_with_analysis (some u) fetch dl an).2 = []) ∧
    (∀ u fetch, is_valid_youtube_url u = false →
      (handle_youtube_info (some u) fetch).2 = []) := by
  refine ⟨by decide, by decide, by decide, by decide, ?_, ?_⟩
  · intro u fetch dl an h
    by_cases hu : u = "" <;>
      simp [handle_youtube_audio_with_analysis, error_response, hu, h]
  · intro u fetch h
    by_cases hu : u = "" <;>
      simp [handle_youtube_info, error_response, hu, h]

/-- Witness for C9: the foreign-host request runs no subprocess. -/
theorem url_validation_C9_witness :
    (handle_youtube_audio_with_analysis (some "https://example.com/watch?v=abc")
      .timeout .ok (.ok featuresEx)).2 = [] :=
  url_validation_C9.2.2.2.2.1 "https://example.com/watch?v=abc" .timeout .ok
    (.ok featuresEx) (by decide)

/-- C10: the metadata-lookup (info) handler also enforces the 300-second
ceiling: a valid URL whose metadata reports duration over 300 gets a 400
response with {duration, maxDuration: 300} instead of the metadata. -/
theorem info_duration_gate_C10 (u : String) (vi : VideoInfo)
    (hu : is_valid_youtube_url u = true)
    (hd : vi.duration.getD 0 > 300) :
    (handle_youtube_info (some u) (.output (.ok vi))).1 =
      error_response 400 "Video duration exceeds 5 minute limit"
        (some (.durMax (vi.duration.getD 0) 300)) := by
  have hne : u ≠ "" := ne_empty_of_valid hu
  simp [handle_youtube_info, error_response, hne, hu, hd]

/-- Witness for C10 at duration 301. -/
theorem info_duration_gate_C10_witness :
    (handle_youtube_info (some "https://youtu.be/abc123")
      (.output (.ok viEx301))).1 =
      error_response 400 "Video duration exceeds 5 minute limit"
        (some (.durMax (viEx301.duration.getD 0) 300)) :=
  info_duration_gate_C10 "https://youtu.be/abc123" viEx301 (by decide) (by decide)
